import Mathlib

/-!
Verification of the degree-day calculation core of
`hass-heating_cooling_degree_days`.

The embedding models the two calculation modules:

* `DegreeDays` — the pure module `src/degree_days/calculations.py`
  (`calculate_hdd_from_readings`, `calculate_cdd_from_readings`).
* `HA` — the integration module
  `custom_components/heating_cooling_degree_days/calculations.py`
  (the same two reading-based functions, which sort the caller's list
  in place and are therefore modelled with explicit state passing, plus
  `calculate_hdd_from_forecast`, `calculate_cdd_from_forecast`,
  `combine_actual_and_forecast_hdd`, `combine_actual_and_forecast_cdd`).

Python `datetime` timestamps are modelled as rational numbers of seconds
(`(b - a).total_seconds()` becomes `b - a`); Python floats are modelled as
exact rationals; `round(x, 1)` is modelled as exact round-half-to-even on
tenths (`pyRound1`); the Python `TypeError` that can escape the forecast
loop is modelled with `Except`.
-/

/-- A temperature reading `(timestamp, temperature)`: the timestamp is in
seconds, the temperature in the caller's unit. -/
abbrev Reading : Type := ℚ × ℚ

/-- Round half to even of a rational to an integer, the tie-breaking rule of
Python's `round`. -/
def roundHalfEven (x : ℚ) : ℤ :=
  if x - ⌊x⌋ = 1 / 2 then (if ⌊x⌋ % 2 = 0 then ⌊x⌋ else ⌊x⌋ + 1) else ⌊x + 1 / 2⌋

/-- Model of Python's `round(x, 1)`: round to one decimal place, ties to
even. -/
def pyRound1 (x : ℚ) : ℚ := (roundHalfEven (x * 10) : ℚ) / 10

/-- Comparator used by `sorted(readings, key=lambda x: x[0])` and
`readings.sort(key=lambda x: x[0])`: compare timestamps only. -/
def leBool (a b : Reading) : Bool := decide (a.1 ≤ b.1)

/-- Sorting the readings by timestamp ascending.  Lean's `mergeSort` is
stable, like Python's Timsort. -/
def sortReadings (rs : List Reading) : List Reading := rs.mergeSort leBool

/-- `interval_days = (next_time - current_time).total_seconds() / (24 * 3600)`. -/
def intervalDays (a b : Reading) : ℚ := (b.1 - a.1) / (24 * 3600)

/-- `MIN_INTERVAL_DAYS = 0.0007` (~1 minute in days). -/
def MIN_INTERVAL_DAYS : ℚ := 7 / 10000

/-- One iteration of the integration loop: skip intervals shorter than
`MIN_INTERVAL_DAYS`, otherwise the trapezoidal contribution
`((dev T_i + dev T_j) / 2) * interval_days`, where `dev` is the clamped
deviation (deficit for HDD, excess for CDD). -/
def pairContrib (dev : ℚ → ℚ) (a b : Reading) : ℚ :=
  if intervalDays a b < MIN_INTERVAL_DAYS then 0
  else ((dev a.2 + dev b.2) / 2) * intervalDays a b

/-- The loop `for i in range(len(sorted_readings) - 1)` accumulating the
interval contributions, carrying the current reading. -/
def integrateFrom (dev : ℚ → ℚ) : Reading → List Reading → ℚ
  | _, [] => 0
  | a, b :: rest => pairContrib dev a b + integrateFrom dev b rest

/-- Total of the interval contributions over a sorted reading list. -/
def integrate (dev : ℚ → ℚ) : List Reading → ℚ
  | [] => 0
  | a :: rest => integrateFrom dev a rest

namespace DegreeDays

/-- `src/degree_days/calculations.py: calculate_hdd_from_readings`. -/
def calculate_hdd_from_readings (readings : List Reading) (base_temp : ℚ) : ℚ :=
  if readings.length < 2 then 0
  else pyRound1 (integrate (fun t => max 0 (base_temp - t)) (sortReadings readings))

/-- `src/degree_days/calculations.py: calculate_cdd_from_readings`. -/
def calculate_cdd_from_readings (readings : List Reading) (base_temp : ℚ) : ℚ :=
  if readings.length < 2 then 0
  else pyRound1 (integrate (fun t => max 0 (t - base_temp)) (sortReadings readings))

end DegreeDays

namespace HA

/-- `custom_components/.../calculations.py: calculate_hdd_from_readings`.
The Python function sorts the caller's list in place (`readings.sort`), so
it is modelled with explicit state passing: the second component is the
list the caller's variable holds after the call. -/
def calculate_hdd_from_readings (readings : List Reading) (base_temp : ℚ) :
    ℚ × List Reading :=
  if readings = [] then (0, readings)
  else
    let sorted := sortReadings readings
    (pyRound1 (integrate (fun t => max 0 (base_temp - t)) sorted), sorted)

/-- `custom_components/.../calculations.py: calculate_cdd_from_readings`,
with the in-place sort modelled as in `HA.calculate_hdd_from_readings`. -/
def calculate_cdd_from_readings (readings : List Reading) (base_temp : ℚ) :
    ℚ × List Reading :=
  if readings = [] then (0, readings)
  else
    let sorted := sortReadings readings
    (pyRound1 (integrate (fun t => max 0 (t - base_temp)) sorted), sorted)

/-- The value held by a forecast dict's `"datetime"` or `"dt"` key: either an
already-typed timestamp, or a string.  A string is represented by the result
of `dt_util.parse_datetime` on it: `some t` when it parses to the timestamp
`t`, `none` when it is unparseable (Home Assistant's `parse_datetime`
returns `None` on failure rather than raising). -/
inductive DtField : Type where
  | str (parseResult : Option ℚ)
  | typed (t : ℚ)
deriving DecidableEq

/-- A forecast dict, keeping the keys the code reads: `"datetime"`, `"dt"`,
`"temperature"`, `"templow"` (each possibly absent). -/
structure Forecast : Type where
  datetimeKey : Option DtField
  dtKey : Option DtField
  temperature : Option ℚ
  templow : Option ℚ
deriving DecidableEq

/-- The Python `TypeError` raised by comparing `None` with a `datetime`. -/
inductive PyErr : Type where
  | typeError
deriving DecidableEq

/-- `forecast.get("datetime") or forecast.get("dt")`. -/
def forecastDt (f : Forecast) : Option DtField := f.datetimeKey <|> f.dtKey

/-- The timestamp a forecast entry resolves to, when it resolves to one:
a typed value is used directly, a string is parsed. -/
def resolvedDt (f : Forecast) : Option ℚ :=
  match forecastDt f with
  | none => none
  | some (.typed t) => some t
  | some (.str pr) => pr

/-- Contribution of a forecast entry whose timestamp resolved to `t`:
out-of-window entries and entries without a `"temperature"` key are skipped
(contribute 0); otherwise the representative temperature is
`(templow + temperature) / 2` when `"templow"` is present and `temperature`
alone otherwise, and the contribution is `dev avg * (1/24)`. -/
def forecastContrib (dev : ℚ → ℚ) (startT endT : ℚ) (f : Forecast) (t : ℚ) : ℚ :=
  if t < startT ∨ endT ≤ t then 0
  else
    match f.temperature with
    | none => 0
    | some temp =>
      let avg : ℚ :=
        match f.templow with
        | some low => (low + temp) / 2
        | none => temp
      dev avg * (1 / 24)

/-- One iteration of the forecast loop.  An entry with no timestamp key is
skipped; a string timestamp that `parse_datetime` cannot parse leaves
`forecast_dt = None` and the following comparison with `start_time` raises
`TypeError`. -/
def forecastStep (dev : ℚ → ℚ) (startT endT : ℚ) (f : Forecast) :
    Except PyErr ℚ :=
  match forecastDt f with
  | none => .ok 0
  | some (.typed t) => .ok (forecastContrib dev startT endT f t)
  | some (.str (some t)) => .ok (forecastContrib dev startT endT f t)
  | some (.str none) => .error .typeError

/-- The forecast loop accumulating the entry contributions, stopping at the
first raised error. -/
def forecastTotal (dev : ℚ → ℚ) (startT endT : ℚ) :
    List Forecast → Except PyErr ℚ
  | [] => .ok 0
  | f :: rest =>
    match forecastStep dev startT endT f with
    | .error e => .error e
    | .ok c =>
      match forecastTotal dev startT endT rest with
      | .error e => .error e
      | .ok r => .ok (c + r)

/-- `custom_components/.../calculations.py: calculate_hdd_from_forecast`. -/
def calculate_hdd_from_forecast (forecast_data : List Forecast)
    (base_temp start_time end_time : ℚ) : Except PyErr ℚ :=
  if forecast_data = [] then .ok 0
  else
    (forecastTotal (fun t => max 0 (base_temp - t)) start_time end_time
      forecast_data).map pyRound1

/-- `custom_components/.../calculations.py: calculate_cdd_from_forecast`. -/
def calculate_cdd_from_forecast (forecast_data : List Forecast)
    (base_temp start_time end_time : ℚ) : Except PyErr ℚ :=
  if forecast_data = [] then .ok 0
  else
    (forecastTotal (fun t => max 0 (t - base_temp)) start_time end_time
      forecast_data).map pyRound1

/-- `custom_components/.../calculations.py: combine_actual_and_forecast_hdd`. -/
def combine_actual_and_forecast_hdd (actual_readings : List Reading)
    (forecast_data : List Forecast)
    (base_temp actual_end_time forecast_end_time : ℚ) : Except PyErr ℚ :=
  let actual_hdd := (calculate_hdd_from_readings actual_readings base_temp).1
  (calculate_hdd_from_forecast forecast_data base_temp actual_end_time
      forecast_end_time).map
    (fun forecast_hdd => pyRound1 (actual_hdd + forecast_hdd))

/-- `custom_components/.../calculations.py: combine_actual_and_forecast_cdd`. -/
def combine_actual_and_forecast_cdd (actual_readings : List Reading)
    (forecast_data : List Forecast)
    (base_temp actual_end_time forecast_end_time : ℚ) : Except PyErr ℚ :=
  let actual_cdd := (calculate_cdd_from_readings actual_readings base_temp).1
  (calculate_cdd_from_forecast forecast_data base_temp actual_end_time
      forecast_end_time).map
    (fun forecast_cdd => pyRound1 (actual_cdd + forecast_cdd))

end HA



/-- `True` when an operation either raised or returned a nonnegative value. -/
def exceptNonneg : Except HA.PyErr ℚ → Bool
  | .ok q => decide (0 ≤ q)
  | .error _ => true

/-- The last reading of a nonempty list, carried as head plus tail. -/
def lastR (a : Reading) : List Reading → Reading
  | [] => a
  | b :: rest => lastR b rest

/-! ### Helper lemmas -/

theorem pyRound1_zero : pyRound1 0 = 0 := by
  norm_num [pyRound1, roundHalfEven]

theorem sortReadings_singleton (x : Reading) : sortReadings [x] = [x] :=
  List.mergeSort_of_sorted (List.pairwise_singleton _ x)

/-- The integration loop is the sum of the contributions of the adjacent
pairs of the traversed list. -/
theorem integrateFrom_eq_zipSum (dev : ℚ → ℚ) (l : List Reading) :
    ∀ a : Reading,
      integrateFrom dev a l =
        (((a :: l).zip l).map (fun p => pairContrib dev p.1 p.2)).sum := by
  induction l with
  | nil => intro a; simp [integrateFrom]
  | cons b rest ih =>
    intro a
    simp only [integrateFrom, List.zip_cons_cons, List.map_cons, List.sum_cons]
    rw [ih b]

/-- `integrate` is the sum over adjacent pairs of the list. -/
theorem integrate_eq_zipSum (dev : ℚ → ℚ) (l : List Reading) :
    integrate dev l = ((l.zip l.tail).map (fun p => pairContrib dev p.1 p.2)).sum := by
  cases l with
  | nil => simp [integrate]
  | cons a rest => simpa [integrate] using integrateFrom_eq_zipSum dev rest a

/-! ### Claims -/

/-- Claim C1: for every readings list with at least 2 elements and every base
temperature, `calculate_hdd_from_readings` returns exactly the rounding to 1
decimal place of the sum, over adjacent pairs of the readings sorted by
timestamp ascending, of `((max(0, base - T_i) + max(0, base - T_j)) / 2) *
interval_days`, where a pair whose interval duration is below `0.0007` days
contributes nothing; `calculate_cdd_from_readings` is the mirror image with
`max(0, T - base)`. -/
theorem claim_C1_trapezoidal_sum (rs : List Reading) (b : ℚ)
    (h : 2 ≤ rs.length) :
    DegreeDays.calculate_hdd_from_readings rs b =
      pyRound1 ((((sortReadings rs).zip (sortReadings rs).tail).map
        (fun p => if (p.2.1 - p.1.1) / (24 * 3600) < 7 / 10000 then 0
          else ((max 0 (b - p.1.2) + max 0 (b - p.2.2)) / 2) *
            ((p.2.1 - p.1.1) / (24 * 3600)))).sum) ∧
    DegreeDays.calculate_cdd_from_readings rs b =
      pyRound1 ((((sortReadings rs).zip (sortReadings rs).tail).map
        (fun p => if (p.2.1 - p.1.1) / (24 * 3600) < 7 / 10000 then 0
          else ((max 0 (p.1.2 - b) + max 0 (p.2.2 - b)) / 2) *
            ((p.2.1 - p.1.1) / (24 * 3600)))).sum) := by
  constructor
  · rw [DegreeDays.calculate_hdd_from_readings, if_neg (by omega),
      integrate_eq_zipSum]
    rfl
  · rw [DegreeDays.calculate_cdd_from_readings, if_neg (by omega),
      integrate_eq_zipSum]
    rfl

theorem claim_C1_trapezoidal_sum_witness :
    2 ≤ ([((0 : ℚ), (10 : ℚ)), (86400, 10)] : List Reading).length ∧
    (DegreeDays.calculate_hdd_from_readings [((0 : ℚ), (10 : ℚ)), (86400, 10)] 18 =
      pyRound1 ((((sortReadings [((0 : ℚ), (10 : ℚ)), (86400, 10)]).zip
          (sortReadings [((0 : ℚ), (10 : ℚ)), (86400, 10)]).tail).map
        (fun p => if (p.2.1 - p.1.1) / (24 * 3600) < 7 / 10000 then 0
          else ((max 0 (18 - p.1.2) + max 0 (18 - p.2.2)) / 2) *
            ((p.2.1 - p.1.1) / (24 * 3600)))).sum) ∧
    DegreeDays.calculate_cdd_from_readings [((0 : ℚ), (10 : ℚ)), (86400, 10)] 18 =
      pyRound1 ((((sortReadings [((0 : ℚ), (10 : ℚ)), (86400, 10)]).zip
          (sortReadings [((0 : ℚ), (10 : ℚ)), (86400, 10)]).tail).map
        (fun p => if (p.2.1 - p.1.1) / (24 * 3600) < 7 / 10000 then 0
          else ((max 0 (p.1.2 - 18) + max 0 (p.2.2 - 18)) / 2) *
            ((p.2.1 - p.1.1) / (24 * 3600)))).sum)) :=
  ⟨by decide, claim_C1_trapezoidal_sum [((0 : ℚ), (10 : ℚ)), (86400, 10)] 18 (by decide)⟩

/-- Claim C2: for every readings list with fewer than 2 elements and every
base temperature, both reading-based functions (in both modules) return
exactly 0.0. -/
theorem claim_C2_short_input_zero (rs : List Reading) (b : ℚ)
    (h : rs.length < 2) :
    DegreeDays.calculate_hdd_from_readings rs b = 0 ∧
    DegreeDays.calculate_cdd_from_readings rs b = 0 ∧
    (HA.calculate_hdd_from_readings rs b).1 = 0 ∧
    (HA.calculate_cdd_from_readings rs b).1 = 0 := by
  refine ⟨?_, ?_, ?_, ?_⟩
  · rw [DegreeDays.calculate_hdd_from_readings, if_pos h]
  · rw [DegreeDays.calculate_cdd_from_readings, if_pos h]
  · match rs, h with
    | [], _ => rw [HA.calculate_hdd_from_readings, if_pos rfl]
    | [x], _ =>
      rw [HA.calculate_hdd_from_readings, if_neg (by simp)]
      simp [sortReadings_singleton, integrate, integrateFrom, pyRound1_zero]
  · match rs, h with
    | [], _ => rw [HA.calculate_cdd_from_readings, if_pos rfl]
    | [x], _ =>
      rw [HA.calculate_cdd_from_readings, if_neg (by simp)]
      simp [sortReadings_singleton, integrate, integrateFrom, pyRound1_zero]

theorem claim_C2_short_input_zero_witness :
    ([((0 : ℚ), (10 : ℚ))] : List Reading).length < 2 ∧
    (DegreeDays.calculate_hdd_from_readings [((0 : ℚ), (10 : ℚ))] 18 = 0 ∧
    DegreeDays.calculate_cdd_from_readings [((0 : ℚ), (10 : ℚ))] 18 = 0 ∧
    (HA.calculate_hdd_from_readings [((0 : ℚ), (10 : ℚ))] 18).1 = 0 ∧
    (HA.calculate_cdd_from_readings [((0 : ℚ), (10 : ℚ))] 18).1 = 0) :=
  ⟨by decide, claim_C2_short_input_zero [((0 : ℚ), (10 : ℚ))] 18 (by decide)⟩

/-! ### Nonnegativity -/

theorem pyRound1_nonneg {x : ℚ} (h : 0 ≤ x) : 0 ≤ pyRound1 x := by
  have h10 : (0 : ℚ) ≤ x * 10 := by positivity
  have hfl : (0 : ℤ) ≤ ⌊x * 10⌋ := Int.floor_nonneg.mpr h10
  have hrh : (0 : ℤ) ≤ roundHalfEven (x * 10) := by
    rw [roundHalfEven]
    split
    · split
      · exact hfl
      · omega
    · exact Int.floor_nonneg.mpr (by linarith)
  rw [pyRound1]
  have : (0 : ℚ) ≤ (roundHalfEven (x * 10) : ℚ) := by exact_mod_cast hrh
  positivity

theorem pairContrib_nonneg (dev : ℚ → ℚ) (hdev : ∀ t, 0 ≤ dev t)
    (a b : Reading) : 0 ≤ pairContrib dev a b := by
  rw [pairContrib]
  split
  · exact le_refl 0
  · rename_i hge
    have hd : (0 : ℚ) ≤ intervalDays a b := by
      have : MIN_INTERVAL_DAYS ≤ intervalDays a b := not_lt.mp hge
      have : (0 : ℚ) < MIN_INTERVAL_DAYS := by norm_num [MIN_INTERVAL_DAYS]
      linarith
    have : (0 : ℚ) ≤ (dev a.2 + dev b.2) / 2 := by
      have := hdev a.2; have := hdev b.2; linarith
    exact mul_nonneg this hd

theorem integrateFrom_nonneg (dev : ℚ → ℚ) (hdev : ∀ t, 0 ≤ dev t)
    (l : List Reading) : ∀ a, 0 ≤ integrateFrom dev a l := by
  induction l with
  | nil => intro a; simp [integrateFrom]
  | cons b rest ih =>
    intro a
    rw [integrateFrom]
    exact add_nonneg (pairContrib_nonneg dev hdev a b) (ih b)

theorem integrate_nonneg (dev : ℚ → ℚ) (hdev : ∀ t, 0 ≤ dev t)
    (l : List Reading) : 0 ≤ integrate dev l := by
  cases l with
  | nil => simp [integrate]
  | cons a rest => exact integrateFrom_nonneg dev hdev rest a

theorem forecastStep_ok_nonneg (dev : ℚ → ℚ) (hdev : ∀ t, 0 ≤ dev t)
    (s e : ℚ) (f : HA.Forecast) (c : ℚ)
    (h : HA.forecastStep dev s e f = .ok c) : 0 ≤ c := by
  have hcontrib : ∀ t, 0 ≤ HA.forecastContrib dev s e f t := by
    intro t
    rw [HA.forecastContrib]
    split
    · exact le_refl 0
    · match f.temperature with
      | none => exact le_refl 0
      | some temp => exact mul_nonneg (hdev _) (by norm_num)
  rw [HA.forecastStep] at h
  rcases hdt : HA.forecastDt f with _ | d
  · rw [hdt] at h
    cases h
    exact le_refl 0
  · rcases d with pr | t
    · rcases pr with _ | t
      · rw [hdt] at h; cases h
      · rw [hdt] at h; cases h; exact hcontrib t
    · rw [hdt] at h; cases h; exact hcontrib t

theorem forecastTotal_ok_nonneg (dev : ℚ → ℚ) (hdev : ∀ t, 0 ≤ dev t)
    (s e : ℚ) (l : List HA.Forecast) :
    ∀ q, HA.forecastTotal dev s e l = .ok q → 0 ≤ q := by
  induction l with
  | nil => intro q h; rw [HA.forecastTotal] at h; cases h; exact le_refl 0
  | cons f rest ih =>
    intro q h
    rw [HA.forecastTotal] at h
    rcases hstep : HA.forecastStep dev s e f with e' | c
    · rw [hstep] at h; cases h
    · rw [hstep] at h
      rcases htot : HA.forecastTotal dev s e rest with e' | r
      · rw [htot] at h; cases h
      · rw [htot] at h
        cases h
        exact add_nonneg (forecastStep_ok_nonneg dev hdev s e f c hstep) (ih r htot)

theorem mapRound_total_ok_nonneg (dev : ℚ → ℚ) (hdev : ∀ t, 0 ≤ dev t)
    (s e : ℚ) (l : List HA.Forecast) (q : ℚ)
    (h : (HA.forecastTotal dev s e l).map pyRound1 = .ok q) : 0 ≤ q := by
  rcases htot : HA.forecastTotal dev s e l with e' | r
  · rw [htot] at h; cases h
  · rw [htot] at h
    cases h
    exact pyRound1_nonneg (forecastTotal_ok_nonneg dev hdev s e l r htot)

theorem hdd_forecast_ok_nonneg (fd : List HA.Forecast) (b s e q : ℚ)
    (h : HA.calculate_hdd_from_forecast fd b s e = .ok q) : 0 ≤ q := by
  rw [HA.calculate_hdd_from_forecast] at h
  split at h
  · cases h; exact le_refl 0
  · exact mapRound_total_ok_nonneg _ (fun t => le_max_left 0 _) s e fd q h

theorem cdd_forecast_ok_nonneg (fd : List HA.Forecast) (b s e q : ℚ)
    (h : HA.calculate_cdd_from_forecast fd b s e = .ok q) : 0 ≤ q := by
  rw [HA.calculate_cdd_from_forecast] at h
  split at h
  · cases h; exact le_refl 0
  · exact mapRound_total_ok_nonneg _ (fun t => le_max_left 0 _) s e fd q h

theorem hdd_readings_nonneg (rs : List Reading) (b : ℚ) :
    0 ≤ DegreeDays.calculate_hdd_from_readings rs b := by
  rw [DegreeDays.calculate_hdd_from_readings]
  split
  · exact le_refl 0
  · exact pyRound1_nonneg (integrate_nonneg _ (fun t => le_max_left 0 _) _)

theorem cdd_readings_nonneg (rs : List Reading) (b : ℚ) :
    0 ≤ DegreeDays.calculate_cdd_from_readings rs b := by
  rw [DegreeDays.calculate_cdd_from_readings]
  split
  · exact le_refl 0
  · exact pyRound1_nonneg (integrate_nonneg _ (fun t => le_max_left 0 _) _)

theorem ha_hdd_readings_nonneg (rs : List Reading) (b : ℚ) :
    0 ≤ (HA.calculate_hdd_from_readings rs b).1 := by
  rw [HA.calculate_hdd_from_readings]
  split
  · exact le_refl 0
  · exact pyRound1_nonneg (integrate_nonneg _ (fun t => le_max_left 0 _) _)

theorem ha_cdd_readings_nonneg (rs : List Reading) (b : ℚ) :
    0 ≤ (HA.calculate_cdd_from_readings rs b).1 := by
  rw [HA.calculate_cdd_from_readings]
  split
  · exact le_refl 0
  · exact pyRound1_nonneg (integrate_nonneg _ (fun t => le_max_left 0 _) _)

/-- Claim C3: every operation of the core returns a value that is greater
than or equal to 0 (for the `Except`-valued forecast and blending
operations: whenever they return a value rather than raising, that value is
nonnegative). -/
theorem claim_C3_nonnegative (rs : List Reading) (fd : List HA.Forecast)
    (b s e t1 t2 : ℚ) :
    0 ≤ DegreeDays.calculate_hdd_from_readings rs b ∧
    0 ≤ DegreeDays.calculate_cdd_from_readings rs b ∧
    0 ≤ (HA.calculate_hdd_from_readings rs b).1 ∧
    0 ≤ (HA.calculate_cdd_from_readings rs b).1 ∧
    exceptNonneg (HA.calculate_hdd_from_forecast fd b s e) = true ∧
    exceptNonneg (HA.calculate_cdd_from_forecast fd b s e) = true ∧
    exceptNonneg (HA.combine_actual_and_forecast_hdd rs fd b t1 t2) = true ∧
    exceptNonneg (HA.combine_actual_and_forecast_cdd rs fd b t1 t2) = true := by
  refine ⟨hdd_readings_nonneg rs b, cdd_readings_nonneg rs b,
    ha_hdd_readings_nonneg rs b, ha_cdd_readings_nonneg rs b, ?_, ?_, ?_, ?_⟩
  · rcases hq : HA.calculate_hdd_from_forecast fd b s e with e' | q
    · rfl
    · simpa [exceptNonneg] using hdd_forecast_ok_nonneg fd b s e q hq
  · rcases hq : HA.calculate_cdd_from_forecast fd b s e with e' | q
    · rfl
    · simpa [exceptNonneg] using cdd_forecast_ok_nonneg fd b s e q hq
  · rw [HA.combine_actual_and_forecast_hdd]
    rcases hq : HA.calculate_hdd_from_forecast fd b t1 t2 with e' | q
    · rfl
    · have h1 := ha_hdd_readings_nonneg rs b
      have h2 := hdd_forecast_ok_nonneg fd b t1 t2 q hq
      simpa [exceptNonneg, Except.map] using pyRound1_nonneg (by linarith)
  · rw [HA.combine_actual_and_forecast_cdd]
    rcases hq : HA.calculate_cdd_from_forecast fd b t1 t2 with e' | q
    · rfl
    · have h1 := ha_cdd_readings_nonneg rs b
      have h2 := cdd_forecast_ok_nonneg fd b t1 t2 q hq
      simpa [exceptNonneg, Except.map] using pyRound1_nonneg (by linarith)

/-! ### Forecast windowing -/

theorem forecastStep_out (dev : ℚ → ℚ) (s e : ℚ) (f : HA.Forecast) (t : ℚ)
    (hdt : HA.resolvedDt f = some t) (hout : t < s ∨ e ≤ t) :
    HA.forecastStep dev s e f = .ok 0 := by
  rcases h : HA.forecastDt f with _ | d
  · simp [HA.resolvedDt, h] at hdt
  · rcases d with pr | t'
    · rcases pr with _ | t'
      · simp [HA.resolvedDt, h] at hdt
      · simp only [HA.resolvedDt, h, Option.some.injEq] at hdt
        subst hdt
        simp [HA.forecastStep, h, HA.forecastContrib, if_pos hout]
    · simp only [HA.resolvedDt, h, Option.some.injEq] at hdt
      subst hdt
      simp [HA.forecastStep, h, HA.forecastContrib, if_pos hout]

theorem forecastTotal_skip_middle (dev : ℚ → ℚ) (s e : ℚ) (f : HA.Forecast)
    (hstep : HA.forecastStep dev s e f = .ok 0) :
    ∀ (l₁ l₂ : List HA.Forecast),
      HA.forecastTotal dev s e (l₁ ++ f :: l₂) =
        HA.forecastTotal dev s e (l₁ ++ l₂) := by
  intro l₁
  induction l₁ with
  | nil =>
    intro l₂
    simp only [List.nil_append, HA.forecastTotal, hstep]
    rcases htot : HA.forecastTotal dev s e l₂ with e' | r <;> simp [htot]
  | cons g l₁ ih =>
    intro l₂
    simp only [List.cons_append, HA.forecastTotal, List.append_eq]
    rw [ih l₂]

theorem roundedForecast_skip (dev : ℚ → ℚ) (s e : ℚ) (f : HA.Forecast)
    (t : ℚ) (hdt : HA.resolvedDt f = some t) (hout : t < s ∨ e ≤ t)
    (l₁ l₂ : List HA.Forecast) :
    (if l₁ ++ f :: l₂ = [] then (.ok 0 : Except HA.PyErr ℚ)
     else (HA.forecastTotal dev s e (l₁ ++ f :: l₂)).map pyRound1) =
    (if l₁ ++ l₂ = [] then .ok 0
     else (HA.forecastTotal dev s e (l₁ ++ l₂)).map pyRound1) := by
  have hstep := forecastStep_out dev s e f t hdt hout
  rw [if_neg (by simp)]
  by_cases hemp : l₁ ++ l₂ = []
  · rw [if_pos hemp]
    rcases List.append_eq_nil.mp hemp with ⟨h1, h2⟩
    subst h1; subst h2
    simp [HA.forecastTotal, hstep, Except.map, pyRound1_zero]
  · rw [if_neg hemp, forecastTotal_skip_middle dev s e f hstep l₁ l₂]

theorem forecastStep_in (dev : ℚ → ℚ) (s e : ℚ) (f : HA.Forecast)
    (t temp : ℚ) (hdt : HA.resolvedDt f = some t)
    (hs : s ≤ t) (he : t < e) (htemp : f.temperature = some temp) :
    HA.forecastStep dev s e f =
      .ok (dev (f.templow.elim temp (fun low => (low + temp) / 2)) * (1 / 24)) := by
  have hwin : ¬(t < s ∨ e ≤ t) := by push_neg; exact ⟨hs, he⟩
  have hcontrib : HA.forecastContrib dev s e f t =
      dev (f.templow.elim temp (fun low => (low + temp) / 2)) * (1 / 24) := by
    rw [HA.forecastContrib, if_neg hwin, htemp]
    rcases hlow : f.templow with _ | low <;> simp [hlow]
  rcases h : HA.forecastDt f with _ | d
  · simp [HA.resolvedDt, h] at hdt
  · rcases d with pr | t'
    · rcases pr with _ | t'
      · simp [HA.resolvedDt, h] at hdt
      · simp only [HA.resolvedDt, h, Option.some.injEq] at hdt
        subst hdt
        simp [HA.forecastStep, h, hcontrib]
    · simp only [HA.resolvedDt, h, Option.some.injEq] at hdt
      subst hdt
      simp [HA.forecastStep, h, hcontrib]

theorem forecastTotal_cons_in (dev : ℚ → ℚ) (s e : ℚ) (f : HA.Forecast)
    (t temp : ℚ) (hdt : HA.resolvedDt f = some t)
    (hs : s ≤ t) (he : t < e) (htemp : f.temperature = some temp)
    (l : List HA.Forecast) :
    HA.forecastTotal dev s e (f :: l) =
      (HA.forecastTotal dev s e l).map
        (fun r => dev (f.templow.elim temp (fun low => (low + temp) / 2)) * (1 / 24) + r) := by
  have hstep := forecastStep_in dev s e f t temp hdt hs he htemp
  simp only [HA.forecastTotal, hstep]
  rcases htot : HA.forecastTotal dev s e l with e' | r <;> simp [htot, Except.map]

/-- Claim C7: a forecast entry whose resolved timestamp lies outside the
half-open window contributes nothing — removing it from the list leaves
`calculate_hdd_from_forecast` and `calculate_cdd_from_forecast` unchanged;
a retained in-window entry with a primary temperature contributes its
one-sided deviation from base times exactly `1/24` day, the representative
temperature being `(templow + temperature) / 2` when `templow` is present
and `temperature` alone otherwise. -/
theorem claim_C7_window_filtering (f : HA.Forecast) (t b s e temp : ℚ)
    (l₁ l₂ l : List HA.Forecast) (hdt : HA.resolvedDt f = some t) :
    ((t < s ∨ e ≤ t) →
      HA.calculate_hdd_from_forecast (l₁ ++ f :: l₂) b s e =
        HA.calculate_hdd_from_forecast (l₁ ++ l₂) b s e ∧
      HA.calculate_cdd_from_forecast (l₁ ++ f :: l₂) b s e =
        HA.calculate_cdd_from_forecast (l₁ ++ l₂) b s e) ∧
    (s ≤ t → t < e → f.temperature = some temp →
      HA.forecastTotal (fun x => max 0 (b - x)) s e (f :: l) =
        (HA.forecastTotal (fun x => max 0 (b - x)) s e l).map
          (fun r =>
            max 0 (b - f.templow.elim temp (fun low => (low + temp) / 2)) * (1 / 24) + r) ∧
      HA.forecastTotal (fun x => max 0 (x - b)) s e (f :: l) =
        (HA.forecastTotal (fun x => max 0 (x - b)) s e l).map
          (fun r =>
            max 0 (f.templow.elim temp (fun low => (low + temp) / 2) - b) * (1 / 24) + r)) := by
  constructor
  · intro hout
    constructor
    · simp only [HA.calculate_hdd_from_forecast]
      exact roundedForecast_skip _ s e f t hdt hout l₁ l₂
    · simp only [HA.calculate_cdd_from_forecast]
      exact roundedForecast_skip _ s e f t hdt hout l₁ l₂
  · intro hs he htemp
    exact ⟨forecastTotal_cons_in _ s e f t temp hdt hs he htemp l,
      forecastTotal_cons_in _ s e f t temp hdt hs he htemp l⟩

theorem claim_C7_window_filtering_witness :
    HA.resolvedDt ⟨some (.typed 5), none, some 30, some 10⟩ = some 5 ∧
    ((((5 : ℚ) < 0 ∨ (10 : ℚ) ≤ 5) →
      HA.calculate_hdd_from_forecast ([] ++ ⟨some (.typed 5), none, some 30, some 10⟩ :: []) 18 0 10 =
        HA.calculate_hdd_from_forecast ([] ++ []) 18 0 10 ∧
      HA.calculate_cdd_from_forecast ([] ++ ⟨some (.typed 5), none, some 30, some 10⟩ :: []) 18 0 10 =
        HA.calculate_cdd_from_forecast ([] ++ []) 18 0 10) ∧
    ((0 : ℚ) ≤ 5 → (5 : ℚ) < 10 →
      HA.Forecast.temperature ⟨some (.typed 5), none, some 30, some 10⟩ = some 30 →
      HA.forecastTotal (fun x => max 0 (18 - x)) 0 10
          (⟨some (.typed 5), none, some 30, some 10⟩ :: []) =
        (HA.forecastTotal (fun x => max 0 (18 - x)) 0 10 []).map
          (fun r =>
            max 0 (18 - (HA.Forecast.templow ⟨some (.typed 5), none, some 30, some 10⟩).elim 30
              (fun low => (low + 30) / 2)) * (1 / 24) + r) ∧
      HA.forecastTotal (fun x => max 0 (x - 18)) 0 10
          (⟨some (.typed 5), none, some 30, some 10⟩ :: []) =
        (HA.forecastTotal (fun x => max 0 (x - 18)) 0 10 []).map
          (fun r =>
            max 0 ((HA.Forecast.templow ⟨some (.typed 5), none, some 30, some 10⟩).elim 30
              (fun low => (low + 30) / 2) - 18) * (1 / 24) + r))) :=
  ⟨rfl, claim_C7_window_filtering ⟨some (.typed 5), none, some 30, some 10⟩ 5 18 0 10 30 [] [] [] rfl⟩

/-- Claim C8 (code bug evaluation): a forecast entry whose timestamp string
is unparseable makes the loop raise `TypeError` (Home Assistant's
`parse_datetime` returns `None` on failure, and the subsequent comparison
`forecast_dt < start_time` compares `None` with a `datetime`), rather than
being silently skipped. -/
theorem claim_C8_unparseable_timestamp_raises :
    HA.calculate_hdd_from_forecast
        [⟨some (.str none), none, some 20, none⟩] 18 0 86400 = .error .typeError ∧
    HA.calculate_cdd_from_forecast
        [⟨some (.str none), none, some 20, none⟩] 18 0 86400 = .error .typeError :=
  ⟨rfl, rfl⟩

/-- Claim C9: blending additivity — the combined operations return the
rounding to 1 decimal of the sum of the (already rounded) readings-based
value and the (already rounded) forecast-based value. -/
theorem claim_C9_blending_additivity (actual : List Reading)
    (fd : List HA.Forecast) (b t1 t2 fh fc : ℚ)
    (hh : HA.calculate_hdd_from_forecast fd b t1 t2 = .ok fh)
    (hc : HA.calculate_cdd_from_forecast fd b t1 t2 = .ok fc) :
    HA.combine_actual_and_forecast_hdd actual fd b t1 t2 =
      .ok (pyRound1 ((HA.calculate_hdd_from_readings actual b).1 + fh)) ∧
    HA.combine_actual_and_forecast_cdd actual fd b t1 t2 =
      .ok (pyRound1 ((HA.calculate_cdd_from_readings actual b).1 + fc)) := by
  constructor
  · rw [HA.combine_actual_and_forecast_hdd, hh]
    rfl
  · rw [HA.combine_actual_and_forecast_cdd, hc]
    rfl

theorem claim_C9_blending_additivity_witness :
    HA.calculate_hdd_from_forecast [] 18 0 1 = .ok 0 ∧
    HA.calculate_cdd_from_forecast [] 18 0 1 = .ok 0 ∧
    (HA.combine_actual_and_forecast_hdd [((0 : ℚ), (10 : ℚ)), (86400, 10)] [] 18 0 1 =
      .ok (pyRound1 ((HA.calculate_hdd_from_readings [((0 : ℚ), (10 : ℚ)), (86400, 10)] 18).1 + 0)) ∧
    HA.combine_actual_and_forecast_cdd [((0 : ℚ), (10 : ℚ)), (86400, 10)] [] 18 0 1 =
      .ok (pyRound1 ((HA.calculate_cdd_from_readings [((0 : ℚ), (10 : ℚ)), (86400, 10)] 18).1 + 0))) :=
  ⟨rfl, rfl, claim_C9_blending_additivity [((0 : ℚ), (10 : ℚ)), (86400, 10)] [] 18 0 1 0 0 rfl rfl⟩

/-! ### The two modules compute the same values; the HA module sorts in
place -/

theorem ha_hdd_value_eq (rs : List Reading) (b : ℚ) :
    (HA.calculate_hdd_from_readings rs b).1 =
      DegreeDays.calculate_hdd_from_readings rs b := by
  match rs with
  | [] => rfl
  | [x] =>
    rw [HA.calculate_hdd_from_readings, if_neg (by simp),
      DegreeDays.calculate_hdd_from_readings, if_pos (by simp)]
    simp [sortReadings_singleton, integrate, integrateFrom, pyRound1_zero]
  | x :: y :: rest =>
    rw [HA.calculate_hdd_from_readings, if_neg (by simp),
      DegreeDays.calculate_hdd_from_readings, if_neg (by simp)]

theorem ha_cdd_value_eq (rs : List Reading) (b : ℚ) :
    (HA.calculate_cdd_from_readings rs b).1 =
      DegreeDays.calculate_cdd_from_readings rs b := by
  match rs with
  | [] => rfl
  | [x] =>
    rw [HA.calculate_cdd_from_readings, if_neg (by simp),
      DegreeDays.calculate_cdd_from_readings, if_pos (by simp)]
    simp [sortReadings_singleton, integrate, integrateFrom, pyRound1_zero]
  | x :: y :: rest =>
    rw [HA.calculate_cdd_from_readings, if_neg (by simp),
      DegreeDays.calculate_cdd_from_readings, if_neg (by simp)]

/-- Claim C10 (counterexample): the `custom_components` version of
`calculate_hdd_from_readings` sorts the caller's list in place, so after a
call on an unsorted list the caller's sequence is NOT the one passed in. -/
theorem claim_C10_counterexample :
    (HA.calculate_hdd_from_readings [((1 : ℚ), (0 : ℚ)), (0, 0)] 18).2 ≠
      [((1 : ℚ), (0 : ℚ)), (0, 0)] := by
  have hs : sortReadings [((1 : ℚ), (0 : ℚ)), (0, 0)] =
      [((0 : ℚ), (0 : ℚ)), (1, 0)] := by
    simp [sortReadings, List.mergeSort, leBool]
  rw [HA.calculate_hdd_from_readings, if_neg (by simp)]
  simp only [hs]
  simp

/-- Claim C10 (amended): the `src/degree_days` functions are pure (modelled
directly as Lean functions), and the `custom_components` functions return
the same values but leave the caller's list sorted by timestamp — a
permutation of the original readings, not necessarily in their original
order. -/
theorem claim_C10_amended_effect (rs : List Reading) (b : ℚ) :
    (HA.calculate_hdd_from_readings rs b).2 = sortReadings rs ∧
    (HA.calculate_cdd_from_readings rs b).2 = sortReadings rs ∧
    (sortReadings rs).Perm rs ∧
    (HA.calculate_hdd_from_readings rs b).1 =
      DegreeDays.calculate_hdd_from_readings rs b ∧
    (HA.calculate_cdd_from_readings rs b).1 =
      DegreeDays.calculate_cdd_from_readings rs b := by
  refine ⟨?_, ?_, List.mergeSort_perm rs leBool, ha_hdd_value_eq rs b,
    ha_cdd_value_eq rs b⟩
  · rw [HA.calculate_hdd_from_readings]
    split
    · rename_i hnil
      subst hnil
      exact (List.mergeSort_of_sorted List.Pairwise.nil).symm
    · rfl
  · rw [HA.calculate_cdd_from_readings]
    split
    · rename_i hnil
      subst hnil
      exact (List.mergeSort_of_sorted List.Pairwise.nil).symm
    · rfl

/-! ### Permutation invariance (distinct timestamps) -/

theorem leBool_trans (a b c : Reading) (hab : leBool a b) (hbc : leBool b c) :
    leBool a c := by
  simp only [leBool, decide_eq_true_eq] at hab hbc ⊢
  exact le_trans hab hbc

theorem leBool_total (a b : Reading) : leBool a b || leBool b a := by
  simp only [leBool, Bool.or_eq_true, decide_eq_true_eq]
  exact le_total a.1 b.1

theorem pairwise_lt_of_sorted_nodup (l : List Reading)
    (hle : l.Pairwise (fun a b => leBool a b = true))
    (hnd : (l.map Prod.fst).Nodup) :
    l.Pairwise (fun a b : Reading => a.1 < b.1) := by
  have hne : l.Pairwise (fun a b : Reading => a.1 ≠ b.1) :=
    List.pairwise_map.mp hnd
  exact (hle.and hne).imp
    (fun h => lt_of_le_of_ne (by simpa [leBool] using h.1) h.2)

theorem sortReadings_eq_of_perm (rs rs' : List Reading)
    (hperm : rs'.Perm rs) (hnodup : (rs.map Prod.fst).Nodup) :
    sortReadings rs' = sortReadings rs := by
  have p1 : (sortReadings rs').Perm rs :=
    (List.mergeSort_perm rs' leBool).trans hperm
  have p2 : (sortReadings rs).Perm rs := List.mergeSort_perm rs leBool
  have pp : (sortReadings rs').Perm (sortReadings rs) := p1.trans p2.symm
  have hn' : ((sortReadings rs').map Prod.fst).Nodup :=
    ((p1.map Prod.fst).nodup_iff).mpr hnodup
  have hn : ((sortReadings rs).map Prod.fst).Nodup :=
    ((p2.map Prod.fst).nodup_iff).mpr hnodup
  have hs' := pairwise_lt_of_sorted_nodup (sortReadings rs')
    (List.sorted_mergeSort leBool_trans leBool_total rs') hn'
  have hs := pairwise_lt_of_sorted_nodup (sortReadings rs)
    (List.sorted_mergeSort leBool_trans leBool_total rs) hn
  haveI : IsAntisymm Reading (fun a b : Reading => a.1 < b.1) :=
    ⟨fun a b h h' => absurd h (lt_asymm h')⟩
  exact List.eq_of_perm_of_sorted pp hs' hs

/-- Claim C4 (counterexample): with duplicate timestamps carrying different
temperatures, permuting the input changes the result — the sort is stable,
so the order among tied timestamps decides which temperature borders the
following interval. -/
theorem claim_C4_counterexample :
    ([((0 : ℚ), (20 : ℚ)), (0, 10), (3600, 30)] : List Reading).Perm
        [((0 : ℚ), (10 : ℚ)), (0, 20), (3600, 30)] ∧
    DegreeDays.calculate_hdd_from_readings
        [((0 : ℚ), (20 : ℚ)), (0, 10), (3600, 30)] 25 ≠
      DegreeDays.calculate_hdd_from_readings
        [((0 : ℚ), (10 : ℚ)), (0, 20), (3600, 30)] 25 := by
  have hA : DegreeDays.calculate_hdd_from_readings
      [((0 : ℚ), (10 : ℚ)), (0, 20), (3600, 30)] 25 = 1 / 10 := by
    have hs : sortReadings [((0 : ℚ), (10 : ℚ)), (0, 20), (3600, 30)] =
        [((0 : ℚ), (10 : ℚ)), (0, 20), (3600, 30)] :=
      List.mergeSort_of_sorted (by decide)
    rw [DegreeDays.calculate_hdd_from_readings, if_neg (by simp), hs]
    norm_num [integrate, integrateFrom, pairContrib, intervalDays,
      MIN_INTERVAL_DAYS, pyRound1, roundHalfEven, max_def]
  have hB : DegreeDays.calculate_hdd_from_readings
      [((0 : ℚ), (20 : ℚ)), (0, 10), (3600, 30)] 25 = 3 / 10 := by
    have hs : sortReadings [((0 : ℚ), (20 : ℚ)), (0, 10), (3600, 30)] =
        [((0 : ℚ), (20 : ℚ)), (0, 10), (3600, 30)] :=
      List.mergeSort_of_sorted (by decide)
    rw [DegreeDays.calculate_hdd_from_readings, if_neg (by simp), hs]
    norm_num [integrate, integrateFrom, pairContrib, intervalDays,
      MIN_INTERVAL_DAYS, pyRound1, roundHalfEven, max_def]
  refine ⟨by decide, ?_⟩
  rw [hA, hB]
  norm_num

/-- Claim C4 (amended): permuting the readings does not change
`calculate_hdd_from_readings` or `calculate_cdd_from_readings`, provided
the timestamps are pairwise distinct. -/
theorem claim_C4_amended_order_invariance (rs rs' : List Reading) (b : ℚ)
    (hperm : rs'.Perm rs) (hnodup : (rs.map Prod.fst).Nodup) :
    DegreeDays.calculate_hdd_from_readings rs' b =
      DegreeDays.calculate_hdd_from_readings rs b ∧
    DegreeDays.calculate_cdd_from_readings rs' b =
      DegreeDays.calculate_cdd_from_readings rs b := by
  have hs := sortReadings_eq_of_perm rs rs' hperm hnodup
  have hlen : rs'.length = rs.length := hperm.length_eq
  constructor
  · rw [DegreeDays.calculate_hdd_from_readings,
      DegreeDays.calculate_hdd_from_readings, hlen, hs]
  · rw [DegreeDays.calculate_cdd_from_readings,
      DegreeDays.calculate_cdd_from_readings, hlen, hs]

theorem claim_C4_amended_order_invariance_witness :
    ([((86400 : ℚ), (12 : ℚ)), (0, 10)] : List Reading).Perm
        [((0 : ℚ), (10 : ℚ)), (86400, 12)] ∧
    (([((0 : ℚ), (10 : ℚ)), (86400, 12)] : List Reading).map Prod.fst).Nodup ∧
    (DegreeDays.calculate_hdd_from_readings [((86400 : ℚ), (12 : ℚ)), (0, 10)] 18 =
      DegreeDays.calculate_hdd_from_readings [((0 : ℚ), (10 : ℚ)), (86400, 12)] 18 ∧
    DegreeDays.calculate_cdd_from_readings [((86400 : ℚ), (12 : ℚ)), (0, 10)] 18 =
      DegreeDays.calculate_cdd_from_readings [((0 : ℚ), (10 : ℚ)), (86400, 12)] 18) :=
  ⟨by decide, by decide,
    claim_C4_amended_order_invariance [((0 : ℚ), (10 : ℚ)), (86400, 12)]
      [((86400 : ℚ), (12 : ℚ)), (0, 10)] 18 (by decide) (by decide)⟩

/-! ### Duplicate-reading insensitivity -/

theorem pairContrib_self (dev : ℚ → ℚ) (x : Reading) :
    pairContrib dev x x = 0 := by
  rw [pairContrib, if_pos]
  norm_num [intervalDays, MIN_INTERVAL_DAYS]

theorem integrateFrom_dup (dev : ℚ → ℚ) (x : Reading) (l₂ : List Reading) :
    ∀ (l₁ : List Reading) (a : Reading),
      integrateFrom dev a (l₁ ++ x :: x :: l₂) =
        integrateFrom dev a (l₁ ++ x :: l₂) := by
  intro l₁
  induction l₁ with
  | nil =>
    intro a
    simp [integrateFrom, pairContrib_self]
  | cons c l₁ ih =>
    intro a
    simp only [List.cons_append, integrateFrom, List.append_eq]
    rw [ih c]

theorem integrate_dup (dev : ℚ → ℚ) (x : Reading) (l₁ l₂ : List Reading) :
    integrate dev (l₁ ++ x :: x :: l₂) = integrate dev (l₁ ++ x :: l₂) := by
  cases l₁ with
  | nil => simp [integrate, integrateFrom, pairContrib_self]
  | cons c l₁ =>
    simp only [List.cons_append, integrate]
    exact integrateFrom_dup dev x l₂ l₁ c

theorem dd_dup_eq (dev : ℚ → ℚ) (l₁ l₂ : List Reading) (x : Reading)
    (hsorted : (l₁ ++ x :: x :: l₂).Pairwise (fun a c : Reading => a.1 ≤ c.1)) :
    (if (l₁ ++ x :: x :: l₂).length < 2 then (0 : ℚ)
     else pyRound1 (integrate dev (sortReadings (l₁ ++ x :: x :: l₂)))) =
    (if (l₁ ++ x :: l₂).length < 2 then 0
     else pyRound1 (integrate dev (sortReadings (l₁ ++ x :: l₂)))) := by
  have hboolD : (l₁ ++ x :: x :: l₂).Pairwise (fun a c => leBool a c = true) :=
    hsorted.imp (fun h => by simpa [leBool] using h)
  have hsub : (l₁ ++ x :: l₂).Sublist (l₁ ++ x :: x :: l₂) :=
    (List.sublist_cons_self x (x :: l₂)).append_left l₁
  have hboolS : (l₁ ++ x :: l₂).Pairwise (fun a c => leBool a c = true) :=
    hboolD.sublist hsub
  have hmsD : sortReadings (l₁ ++ x :: x :: l₂) = l₁ ++ x :: x :: l₂ :=
    List.mergeSort_of_sorted hboolD
  have hmsS : sortReadings (l₁ ++ x :: l₂) = l₁ ++ x :: l₂ :=
    List.mergeSort_of_sorted hboolS
  by_cases hlen : (l₁ ++ x :: l₂).length < 2
  · have h0 : l₁.length = 0 ∧ l₂.length = 0 := by
      simp [List.length_append] at hlen
      omega
    obtain rfl := List.length_eq_zero.mp h0.1
    obtain rfl := List.length_eq_zero.mp h0.2
    rw [if_pos hlen, if_neg (by simp)]
    rw [hmsD]
    simp [integrate, integrateFrom, pairContrib_self, pyRound1_zero]
  · rw [if_neg hlen,
      if_neg (by simp only [List.length_append, List.length_cons] at hlen ⊢; omega)]
    rw [hmsD, hmsS, integrate_dup]

/-- Claim C5 (counterexample): inserting an extra reading 30 seconds after a
neighboring reading, with the same temperature, changes the result — the
skipped sub-minute interval's duration is dropped from the integral, and
with a large enough deficit the loss survives the rounding. -/
theorem claim_C5_counterexample :
    intervalDays ((0 : ℚ), (10 : ℚ)) ((30 : ℚ), (10 : ℚ)) < MIN_INTERVAL_DAYS ∧
    DegreeDays.calculate_hdd_from_readings
        [((0 : ℚ), (10 : ℚ)), (30, 10), (3600, 10)] 2410 ≠
      DegreeDays.calculate_hdd_from_readings
        [((0 : ℚ), (10 : ℚ)), (3600, 10)] 2410 := by
  have h1 : DegreeDays.calculate_hdd_from_readings
      [((0 : ℚ), (10 : ℚ)), (30, 10), (3600, 10)] 2410 = 496 / 5 := by
    have hs : sortReadings [((0 : ℚ), (10 : ℚ)), (30, 10), (3600, 10)] =
        [((0 : ℚ), (10 : ℚ)), (30, 10), (3600, 10)] :=
      List.mergeSort_of_sorted (by decide)
    rw [DegreeDays.calculate_hdd_from_readings, if_neg (by simp), hs]
    norm_num [integrate, integrateFrom, pairContrib, intervalDays,
      MIN_INTERVAL_DAYS, pyRound1, roundHalfEven, max_def]
  have h2 : DegreeDays.calculate_hdd_from_readings
      [((0 : ℚ), (10 : ℚ)), (3600, 10)] 2410 = 100 := by
    have hs : sortReadings [((0 : ℚ), (10 : ℚ)), (3600, 10)] =
        [((0 : ℚ), (10 : ℚ)), (3600, 10)] :=
      List.mergeSort_of_sorted (by decide)
    rw [DegreeDays.calculate_hdd_from_readings, if_neg (by simp), hs]
    norm_num [integrate, integrateFrom, pairContrib, intervalDays,
      MIN_INTERVAL_DAYS, pyRound1, roundHalfEven, max_def]
  refine ⟨by norm_num [intervalDays, MIN_INTERVAL_DAYS], ?_⟩
  rw [h1, h2]
  norm_num

/-- Claim C5 (amended): in a timestamp-sorted readings list, inserting an
exact duplicate of a reading right next to it (same timestamp, same
temperature) does not change `calculate_hdd_from_readings` or
`calculate_cdd_from_readings`: the duplicated pair forms a zero-width
interval that is skipped and no other interval changes. -/
theorem claim_C5_amended_duplicate_insensitivity (l₁ l₂ : List Reading)
    (x : Reading) (b : ℚ)
    (hsorted : (l₁ ++ x :: x :: l₂).Pairwise (fun a c : Reading => a.1 ≤ c.1)) :
    DegreeDays.calculate_hdd_from_readings (l₁ ++ x :: x :: l₂) b =
      DegreeDays.calculate_hdd_from_readings (l₁ ++ x :: l₂) b ∧
    DegreeDays.calculate_cdd_from_readings (l₁ ++ x :: x :: l₂) b =
      DegreeDays.calculate_cdd_from_readings (l₁ ++ x :: l₂) b := by
  constructor
  · rw [DegreeDays.calculate_hdd_from_readings,
      DegreeDays.calculate_hdd_from_readings]
    exact dd_dup_eq _ l₁ l₂ x hsorted
  · rw [DegreeDays.calculate_cdd_from_readings,
      DegreeDays.calculate_cdd_from_readings]
    exact dd_dup_eq _ l₁ l₂ x hsorted

theorem claim_C5_amended_duplicate_insensitivity_witness :
    (([] ++ ((0 : ℚ), (10 : ℚ)) :: ((0 : ℚ), (10 : ℚ)) :: [((3600 : ℚ), (10 : ℚ))] :
        List Reading).Pairwise (fun a c : Reading => a.1 ≤ c.1)) ∧
    (DegreeDays.calculate_hdd_from_readings
        ([] ++ ((0 : ℚ), (10 : ℚ)) :: ((0 : ℚ), (10 : ℚ)) :: [((3600 : ℚ), (10 : ℚ))]) 18 =
      DegreeDays.calculate_hdd_from_readings
        ([] ++ ((0 : ℚ), (10 : ℚ)) :: [((3600 : ℚ), (10 : ℚ))]) 18 ∧
    DegreeDays.calculate_cdd_from_readings
        ([] ++ ((0 : ℚ), (10 : ℚ)) :: ((0 : ℚ), (10 : ℚ)) :: [((3600 : ℚ), (10 : ℚ))]) 18 =
      DegreeDays.calculate_cdd_from_readings
        ([] ++ ((0 : ℚ), (10 : ℚ)) :: [((3600 : ℚ), (10 : ℚ))]) 18) :=
  ⟨by decide,
    claim_C5_amended_duplicate_insensitivity [] [((3600 : ℚ), (10 : ℚ))]
      ((0 : ℚ), (10 : ℚ)) 18 (by decide)⟩

/-! ### Constant temperature over well-spaced readings -/

theorem integrateFrom_const_gap (dev : ℚ → ℚ) (T d : ℚ) (hd : dev T = d) :
    ∀ (l : List Reading) (a : Reading), a.2 = T → (∀ p ∈ l, p.2 = T) →
      List.Chain' (fun u v : Reading => u.1 + 1512 / 25 ≤ v.1) (a :: l) →
      integrateFrom dev a l = d * ((lastR a l).1 - a.1) / (24 * 3600) := by
  intro l
  induction l with
  | nil =>
    intro a _ _ _
    simp [integrateFrom, lastR]
  | cons bb rest ih =>
    intro a ha hl hchain
    have hR : a.1 + 1512 / 25 ≤ bb.1 := (List.chain'_cons.mp hchain).1
    have hchain' := (List.chain'_cons.mp hchain).2
    have hbbT : bb.2 = T := hl bb (by simp)
    have hrest : ∀ p ∈ rest, p.2 = T := fun p hp => hl p (by simp [hp])
    rw [integrateFrom, ih bb hbbT hrest hchain']
    have hguard : ¬ intervalDays a bb < MIN_INTERVAL_DAYS := by
      rw [intervalDays, MIN_INTERVAL_DAYS, not_lt,
        show (7 / 10000 : ℚ) = (1512 / 25) / (24 * 3600) by norm_num]
      exact (div_le_div_iff_of_pos_right (by norm_num : (0 : ℚ) < 24 * 3600)).mpr
        (by linarith)
    rw [pairContrib, if_neg hguard, ha, hbbT, hd, intervalDays]
    rw [show lastR a (bb :: rest) = lastR bb rest from rfl]
    ring

/-- Claim C6 (counterexample): a constant-temperature reading list whose
sorted timestamps span exactly 24 hours need NOT yield
`round(max(0, B - T), 1)`: a sub-minute gap between two of the samples is
skipped and its duration is lost from the integral. -/
theorem claim_C6_counterexample :
    (∀ p ∈ ([((0 : ℚ), (10 : ℚ)), (30, 10), (86400, 10)] : List Reading),
      p.2 = 10) ∧
    (lastR ((0 : ℚ), (10 : ℚ)) [((30 : ℚ), (10 : ℚ)), (86400, 10)]).1 = 86400 ∧
    DegreeDays.calculate_hdd_from_readings
        [((0 : ℚ), (10 : ℚ)), (30, 10), (86400, 10)] 155 ≠
      pyRound1 (max 0 (155 - 10)) := by
  have h1 : DegreeDays.calculate_hdd_from_readings
      [((0 : ℚ), (10 : ℚ)), (30, 10), (86400, 10)] 155 = 1449 / 10 := by
    have hs : sortReadings [((0 : ℚ), (10 : ℚ)), (30, 10), (86400, 10)] =
        [((0 : ℚ), (10 : ℚ)), (30, 10), (86400, 10)] :=
      List.mergeSort_of_sorted (by decide)
    rw [DegreeDays.calculate_hdd_from_readings, if_neg (by simp), hs]
    norm_num [integrate, integrateFrom, pairContrib, intervalDays,
      MIN_INTERVAL_DAYS, pyRound1, roundHalfEven, max_def]
  have h2 : pyRound1 (max 0 (155 - 10 : ℚ)) = 145 := by
    norm_num [pyRound1, roundHalfEven, max_def]
  refine ⟨by decide, by norm_num [lastR], ?_⟩
  rw [h1, h2]
  norm_num

/-- Claim C6 (amended): for a readings list whose consecutive timestamps are
each at least `0.0007` days (60.48 seconds) apart — so the list is sorted
and no interval is skipped — with all temperatures equal to `T` and the
timestamps spanning exactly 24 hours, `calculate_hdd_from_readings` returns
`round(max(0, B - T), 1)` and `calculate_cdd_from_readings` returns
`round(max(0, T - B), 1)`, independent of the number of samples. -/
theorem claim_C6_amended_constant_day (t0 T b : ℚ) (rest : List Reading)
    (hne : rest ≠ [])
    (hchain : List.Chain' (fun u v : Reading => u.1 + 1512 / 25 ≤ v.1)
      (((t0, T) : Reading) :: rest))
    (htemps : ∀ p ∈ rest, (p : Reading).2 = T)
    (hspan : (lastR ((t0, T) : Reading) rest).1 = t0 + 86400) :
    DegreeDays.calculate_hdd_from_readings (((t0, T) : Reading) :: rest) b =
      pyRound1 (max 0 (b - T)) ∧
    DegreeDays.calculate_cdd_from_readings (((t0, T) : Reading) :: rest) b =
      pyRound1 (max 0 (T - b)) := by
  have hpair : (((t0, T) : Reading) :: rest).Pairwise
      (fun u v => leBool u v = true) := by
    haveI : IsTrans Reading (fun u v : Reading => u.1 + 1512 / 25 ≤ v.1) :=
      ⟨fun a bb c h1 h2 => by linarith⟩
    exact (List.chain'_iff_pairwise.mp hchain).imp
      (fun h => by simp only [leBool, decide_eq_true_eq]; linarith)
  have hms : sortReadings (((t0, T) : Reading) :: rest) =
      ((t0, T) : Reading) :: rest := List.mergeSort_of_sorted hpair
  have hlen : ¬ (((t0, T) : Reading) :: rest).length < 2 := by
    have := List.length_pos.mpr hne
    simp only [List.length_cons]
    omega
  constructor
  · rw [DegreeDays.calculate_hdd_from_readings, if_neg hlen, hms, integrate,
      integrateFrom_const_gap _ T (max 0 (b - T)) rfl rest ((t0, T) : Reading)
        rfl htemps hchain, hspan,
      show max 0 (b - T) * (t0 + 86400 - t0) / (24 * 3600) = max 0 (b - T) by
        ring]
  · rw [DegreeDays.calculate_cdd_from_readings, if_neg hlen, hms, integrate,
      integrateFrom_const_gap _ T (max 0 (T - b)) rfl rest ((t0, T) : Reading)
        rfl htemps hchain, hspan,
      show max 0 (T - b) * (t0 + 86400 - t0) / (24 * 3600) = max 0 (T - b) by
        ring]

theorem claim_C6_amended_constant_day_witness :
    ([((86400 : ℚ), (10 : ℚ))] : List Reading) ≠ [] ∧
    List.Chain' (fun u v : Reading => u.1 + 1512 / 25 ≤ v.1)
      (((0, 10) : Reading) :: [((86400 : ℚ), (10 : ℚ))]) ∧
    (∀ p ∈ ([((86400 : ℚ), (10 : ℚ))] : List Reading), (p : Reading).2 = 10) ∧
    (lastR ((0, 10) : Reading) [((86400 : ℚ), (10 : ℚ))]).1 = 0 + 86400 ∧
    (DegreeDays.calculate_hdd_from_readings
        (((0, 10) : Reading) :: [((86400 : ℚ), (10 : ℚ))]) 18 =
      pyRound1 (max 0 (18 - 10)) ∧
    DegreeDays.calculate_cdd_from_readings
        (((0, 10) : Reading) :: [((86400 : ℚ), (10 : ℚ))]) 18 =
      pyRound1 (max 0 (10 - 18))) :=
  ⟨by decide, by norm_num [List.chain'_cons, List.chain'_singleton], by decide,
    by norm_num [lastR],
    claim_C6_amended_constant_day 0 10 18 [((86400 : ℚ), (10 : ℚ))]
      (by decide) (by norm_num [List.chain'_cons, List.chain'_singleton])
      (by decide) (by norm_num [lastR])⟩
